import Mathlib

/-!
Verification of the HTML-canvas drawing backend adapter
(`src/drawing/backend_impl/canvas.rs` of the plotters repository).

Shallow embedding conventions:
* Every draw primitive is embedded as a pure function that returns the
  ordered list of native 2D-rendering-context calls it issues (`CanvasOp`)
  together with its result (`Except` of the drawing-error kind).
* Rust `f64` values reaching this file (color alpha, font size, the arc
  angle constant) are modelled as exact rationals; every `f64` is a dyadic
  rational, and the integer-to-float casts and additions performed here are
  exact, so `Rat` arithmetic is faithful.  `pi_f64` below is the exact
  rational value of the IEEE-754 double `std::f64::consts::PI`.
* The Rust `Display` of the numeric components (`u8` and `f64`) is modelled
  by decimal rendering (`fmtF64` for the rationals); for a dyadic rational
  the decimal expansion terminates, so the bounded fuel is never exhausted
  on values a `f64` can take.
* `JsValue` is modelled by the only capability this file uses of it:
  whether `JSON::stringify` succeeds on it and with which string.
* The fallible host calls (`arc` in `draw_circle`, `fill_text` in
  `draw_text`) are parameterized by an oracle `Option JsValue`: `none`
  means the host call succeeds, `some e` means it fails with value `e`.
  The trace records every call issued, including the failing one.
-/

namespace Plotters

/-- Model of `wasm_bindgen::JsValue`, restricted to the capability used by
the adapter: `JSON::stringify` either produces a string or fails. -/
structure JsValue where
  stringify : Option String
  deriving DecidableEq

/-- Model of `js_sys::JSON::stringify` followed by the `JsString → String`
conversion: succeeds with a string or fails (the failure payload is
discarded by the adapter via `unwrap_or`). -/
def JSONstringify (v : JsValue) : Option String :=
  v.stringify

/-- The adapter error type `CanvasError(JsValue)`. -/
structure CanvasError where
  val : JsValue
  deriving DecidableEq

/-- The `impl Display for CanvasError`: writes
`Canvas Error: <stringified>` with `Unknown` as the fallback when
stringification fails. -/
def CanvasError.display (e : CanvasError) : String :=
  "Canvas Error: " ++ (JSONstringify e.val).getD "Unknown"

/-- The `impl Debug for CanvasError`: writes `CanvasError(<stringified>)`
with `Unknown` as the fallback when stringification fails. -/
def CanvasError.debugFmt (e : CanvasError) : String :=
  "CanvasError(" ++ (JSONstringify e.val).getD "Unknown" ++ ")"

/-- Modelled from the spec: the drawing-backend error kind consumed from
`crate::drawing::backend`; the adapter only ever constructs the
drawing-error variant wrapping its own error type. -/
inductive DrawingErrorKind (E : Type) : Type where
  | DrawingError (err : E)
  deriving DecidableEq

/-- `BackendCoord`: a pair of `i32` backend coordinates, modelled as
integers. -/
def BackendCoord : Type := Int × Int

/-- The abstract `Color` capability: `rgb()` yields three `u8` components
and `alpha()` yields an `f64`, modelled as an exact rational. -/
structure ColorCap where
  r : Nat
  g : Nat
  b : Nat
  alpha : Rat

/-- The `FontDesc` capability: `get_size()` yields an `f64` (exact
rational) and `get_name()` a string. -/
structure FontDesc where
  size : Rat
  name : String

def FontDesc.get_size (f : FontDesc) : Rat := f.size

def FontDesc.get_name (f : FontDesc) : String := f.name

/-- Decimal digits of the fractional part `num/den` (with `num < den`),
with enough fuel for any dyadic rational a `f64` can denote. -/
def fracDigits : Nat → Nat → Nat → String
  | _, _, 0 => ""
  | num, den, fuel + 1 =>
    if num = 0 then ""
    else
      let num10 := num * 10
      Nat.repr (num10 / den) ++ fracDigits (num10 % den) den fuel

/-- Decimal rendering of a rational standing for a Rust `f64` under `{}`
formatting: integer rendering when the value is integral, otherwise the
terminating decimal expansion. -/
def fmtF64 (q : Rat) : String :=
  let sign := if q < 0 then "-" else ""
  let n := q.num.natAbs
  let d := q.den
  if n % d = 0 then sign ++ Nat.repr (n / d)
  else sign ++ Nat.repr (n / d) ++ "." ++ fracDigits (n % d) d 1200

/-- `make_canvas_color`: formats the color as
`rgba(<r>,<g>,<b>,<a>)` with decimal components (the source converts the
string into a `JsValue`; the model keeps the string). -/
def make_canvas_color (color : ColorCap) : String :=
  "rgba(" ++ Nat.repr color.r ++ "," ++ Nat.repr color.g ++ ","
    ++ Nat.repr color.b ++ "," ++ fmtF64 color.alpha ++ ")"

/-- One native call issued against the `CanvasRenderingContext2d`. -/
inductive CanvasOp : Type where
  | setFillStyle (style : String)
  | setStrokeStyle (style : String)
  | fillRect (x y w h : Rat)
  | strokeRect (x y w h : Rat)
  | beginPath
  | moveTo (x y : Rat)
  | lineTo (x y : Rat)
  | stroke
  | fill
  | arc (x y radius startAngle endAngle : Rat)
  | setTextBaseline (baseline : String)
  | setFont (font : String)
  | fillText (text : String) (x y : Rat)
  deriving DecidableEq

/-- Exact rational value of the IEEE-754 double `std::f64::consts::PI`. -/
def pi_f64 : Rat := 884279719003555 / 2 ^ 48

/-- Result of one draw primitive: the trace of context calls issued, and
the returned `Result`. -/
def DrawResult : Type := List CanvasOp × Except (DrawingErrorKind CanvasError) Unit

/-- `open`: a no-op returning `Ok(())`. -/
def openOp : Except (DrawingErrorKind CanvasError) Unit := .ok ()

/-- `close`: a no-op returning `Ok(())`. -/
def closeOp : Except (DrawingErrorKind CanvasError) Unit := .ok ()

/-- `draw_pixel`: sets the fill style and fills a 1×1 rectangle at the
point; always `Ok`. -/
def draw_pixel (point : BackendCoord) (color : ColorCap) : DrawResult :=
  ([.setFillStyle (make_canvas_color color),
    .fillRect (point.1 : Rat) (point.2 : Rat) 1 1], .ok ())

/-- `draw_line`: sets the stroke style, begins a path, moves to `from`,
draws a line to `to`, strokes; always `Ok`. -/
def draw_line (from_ to_ : BackendCoord) (color : ColorCap) : DrawResult :=
  ([.setStrokeStyle (make_canvas_color color), .beginPath,
    .moveTo (from_.1 : Rat) (from_.2 : Rat),
    .lineTo (to_.1 : Rat) (to_.2 : Rat), .stroke], .ok ())

/-- `draw_rect`: fills or strokes, per the flag, a rectangle at
`upper_left` with extents `bottom_right - upper_left` component-wise, with
no normalization of corner order; always `Ok`. -/
def draw_rect (upper_left bottom_right : BackendCoord) (color : ColorCap)
    (fill : Bool) : DrawResult :=
  if fill then
    ([.setFillStyle (make_canvas_color color),
      .fillRect (upper_left.1 : Rat) (upper_left.2 : Rat)
        ((bottom_right.1 - upper_left.1 : Int) : Rat)
        ((bottom_right.2 - upper_left.2 : Int) : Rat)], .ok ())
  else
    ([.setStrokeStyle (make_canvas_color color),
      .strokeRect (upper_left.1 : Rat) (upper_left.2 : Rat)
        ((bottom_right.1 - upper_left.1 : Int) : Rat)
        ((bottom_right.2 - upper_left.2 : Int) : Rat)], .ok ())

/-- The `line_to` call for one backend coordinate (coordinates cast to
`f64`, which is exact). -/
def lineToOf (next : BackendCoord) : CanvasOp :=
  .lineTo (next.1 : Rat) (next.2 : Rat)

/-- `draw_path`: begins a path; when the sequence is non-empty, sets the
stroke style, moves to the first point and draws lines through the rest;
strokes at the end; always `Ok`. -/
def draw_path (path : List BackendCoord) (color : ColorCap) : DrawResult :=
  match path with
  | [] => ([.beginPath, .stroke], .ok ())
  | start :: rest =>
    (.beginPath :: .setStrokeStyle (make_canvas_color color)
      :: .moveTo (start.1 : Rat) (start.2 : Rat)
      :: (rest.map lineToOf ++ [.stroke]), .ok ())

/-- `draw_circle`: sets the fill or stroke style per the flag, begins a
path, issues an `arc` call from 0 to `2 * pi_f64`; if the host arc call
fails (`arcErr = some e`) returns the drawing-error wrapping `e`,
otherwise fills or strokes per the flag and returns `Ok`. -/
def draw_circle (arcErr : Option JsValue) (center : BackendCoord)
    (radius : Nat) (color : ColorCap) (fill : Bool) : DrawResult :=
  let styleOp := if fill then CanvasOp.setFillStyle (make_canvas_color color)
    else CanvasOp.setStrokeStyle (make_canvas_color color)
  let issued := [styleOp, .beginPath,
    .arc (center.1 : Rat) (center.2 : Rat) (radius : Rat) 0 (pi_f64 * 2)]
  match arcErr with
  | some e => (issued, .error (.DrawingError ⟨e⟩))
  | none => (issued ++ [if fill then CanvasOp.fill else CanvasOp.stroke], .ok ())

/-- `draw_text`: sets the text baseline to `bottom`, sets the fill style,
sets the font to `<size>px <name>`, and issues a `fill_text` call at
`(x, y + size)`; if the host fill-text call fails (`textErr = some e`)
returns the drawing-error wrapping `e`, otherwise `Ok`. -/
def draw_text (textErr : Option JsValue) (text : String) (font : FontDesc)
    (pos : BackendCoord) (color : ColorCap) : DrawResult :=
  let issued := [CanvasOp.setTextBaseline "bottom",
    .setFillStyle (make_canvas_color color),
    .setFont (fmtF64 font.get_size ++ "px " ++ font.get_name),
    .fillText text (pos.1 : Rat) ((pos.2 : Rat) + font.get_size)]
  match textErr with
  | some e => (issued, .error (.DrawingError ⟨e⟩))
  | none => (issued, .ok ())

/-- Opaque model of a successfully obtained
`web_sys::CanvasRenderingContext2d` handle (the calls issued against it are
modelled by `CanvasOp` traces). -/
structure CanvasRenderingContext2d where
  ctxId : Nat
  deriving DecidableEq

/-- Result of `HtmlCanvasElement::get_context("2d")` followed by the
`dyn_into` cast: a JS object that may or may not cast to a 2D context. -/
structure ContextObject where
  asContext2d : Option CanvasRenderingContext2d
  deriving DecidableEq

/-- Model of `web_sys::HtmlCanvasElement`: its size attributes and the
outcome of asking it for a `2d` context (a fallible call returning an
optional object). -/
structure HtmlCanvasElement where
  width : Nat
  height : Nat
  contextResult : Except JsValue (Option ContextObject)

/-- Model of a DOM element: either it casts to a canvas element
(`dyn_into` succeeds) or not. -/
structure Element where
  asCanvas : Option HtmlCanvasElement

/-- Model of the host document: id-based element lookup. -/
structure Document where
  elements : String → Option Element

/-- `Document::get_element_by_id`. -/
def Document.get_element_by_id (d : Document) (id : String) : Option Element :=
  d.elements id

/-- Model of the host window: may or may not expose a document. -/
structure Window where
  doc : Option Document

/-- Model of the host environment: `window()` may return nothing. -/
structure Env where
  window : Option Window

/-- The backend that is drawing on the HTML canvas: a canvas handle and
its 2D rendering context. -/
structure CanvasBackend where
  canvas : HtmlCanvasElement
  context : CanvasRenderingContext2d

/-- `CanvasBackend::new`: resolves window, document, element by id, casts
the element to a canvas, obtains the 2D context and casts it; any failing
step collapses to `none`. -/
def CanvasBackend.new (env : Env) (elem_id : String) : Option CanvasBackend := do
  let w ← env.window
  let document ← w.doc
  let elem ← document.get_element_by_id elem_id
  let canvas ← elem.asCanvas
  let ctxOpt ← canvas.contextResult.toOption
  let obj ← ctxOpt
  let context ← obj.asContext2d
  some { canvas := canvas, context := context }

/-- `CanvasBackend::get_size`: the canvas width and height attributes. -/
def CanvasBackend.get_size (b : CanvasBackend) : Nat × Nat :=
  (b.canvas.width, b.canvas.height)

/-- The mutable style state of a rendering context that the adapter sets
(fill style, stroke style, font, text baseline). -/
structure CtxState where
  fillStyle : String
  strokeStyle : String
  font : String
  textBaseline : String
  deriving DecidableEq

/-- Effect of one context call on the style state (geometry calls leave
the style state unchanged). -/
def applyOp (s : CtxState) : CanvasOp → CtxState
  | .setFillStyle v => { s with fillStyle := v }
  | .setStrokeStyle v => { s with strokeStyle := v }
  | .setFont v => { s with font := v }
  | .setTextBaseline v => { s with textBaseline := v }
  | _ => s

/-- Effect of a trace of context calls on the style state. -/
def applyOps (s : CtxState) (ops : List CanvasOp) : CtxState :=
  ops.foldl applyOp s

/-- Recognizer for `move_to` calls. -/
def CanvasOp.isMoveTo : CanvasOp → Bool
  | .moveTo _ _ => true
  | _ => false

/-- Recognizer for `line_to` calls. -/
def CanvasOp.isLineTo : CanvasOp → Bool
  | .lineTo _ _ => true
  | _ => false

/-- Recognizer for `stroke` calls. -/
def CanvasOp.isStroke : CanvasOp → Bool
  | .stroke => true
  | _ => false

/-- Recognizer for `arc` calls. -/
def CanvasOp.isArc : CanvasOp → Bool
  | .arc _ _ _ _ _ => true
  | _ => false

/-- Recognizer for the two style-setting calls (fill or stroke style). -/
def CanvasOp.isSetStyle : CanvasOp → Bool
  | .setFillStyle _ => true
  | .setStrokeStyle _ => true
  | _ => false

/-- A sample concrete color used by the concrete parts of the theorems:
`rgb() = (0, 0, 255)`, `alpha() = 1`. -/
def sampleColor : ColorCap := ⟨0, 0, 255, 1⟩

lemma filter_lineTo_map_isLineTo (l : List BackendCoord) :
    (l.map lineToOf).filter CanvasOp.isLineTo = l.map lineToOf := by
  induction l with
  | nil => rfl
  | cons p l ih => simp [lineToOf, CanvasOp.isLineTo, ih]

lemma filter_lineTo_map_isMoveTo (l : List BackendCoord) :
    (l.map lineToOf).filter CanvasOp.isMoveTo = [] := by
  induction l with
  | nil => rfl
  | cons p l ih => simp [lineToOf, CanvasOp.isMoveTo, ih]

lemma filter_lineTo_map_isStroke (l : List BackendCoord) :
    (l.map lineToOf).filter CanvasOp.isStroke = [] := by
  induction l with
  | nil => rfl
  | cons p l ih => simp [lineToOf, CanvasOp.isStroke, ih]

lemma filter_lineTo_map_isSetStyle (l : List BackendCoord) :
    (l.map lineToOf).filter CanvasOp.isSetStyle = [] := by
  induction l with
  | nil => rfl
  | cons p l ih => simp [lineToOf, CanvasOp.isSetStyle, ih]

lemma applyOps_lineTo_map (s : CtxState) (l : List BackendCoord) :
    applyOps s (l.map lineToOf) = s := by
  induction l generalizing s with
  | nil => rfl
  | cons p l ih => simpa [applyOps, lineToOf, applyOp] using ih s

/-- C1: among the primitives, `draw_pixel`, `draw_line`, `draw_rect` and
`draw_path` return success on every input, as do `open` and `close`; only
`draw_circle` and `draw_text` can return a drawing-error result (witnessed
by a failing host call). -/
theorem C1_only_circle_and_text_fallible :
    (∀ p c, (draw_pixel p c).2 = .ok ())
    ∧ (∀ a b c, (draw_line a b c).2 = .ok ())
    ∧ (∀ ul br c fill, (draw_rect ul br c fill).2 = .ok ())
    ∧ (∀ path c, (draw_path path c).2 = .ok ())
    ∧ openOp = .ok () ∧ closeOp = .ok ()
    ∧ (∃ e center radius c fill, (draw_circle (some e) center radius c fill).2
        = .error (.DrawingError ⟨e⟩))
    ∧ (∃ e text font pos c, (draw_text (some e) text font pos c).2
        = .error (.DrawingError ⟨e⟩)) := by
  refine ⟨fun p c => rfl, fun a b c => rfl, fun ul br c fill => ?_,
    fun path c => ?_, rfl, rfl, ?_, ?_⟩
  · cases fill <;> rfl
  · cases path <;> rfl
  · exact ⟨⟨none⟩, (0, 0), 1, sampleColor, true, rfl⟩
  · exact ⟨⟨none⟩, "x", ⟨12, "serif"⟩, (0, 0), sampleColor, rfl⟩

/-- C2: `CanvasBackend::new` returns `none` exactly when some lookup step
fails (no window, no document, no element with the id, element not a
canvas, or 2D context unavailable); when every step succeeds it returns
the adapter bound to that canvas and that context. -/
theorem C2_new_characterization :
    ∀ (env : Env) (elem_id : String),
    ((CanvasBackend.new env elem_id).isSome ↔
      ∃ w d e cv obj ctx, env.window = some w ∧ w.doc = some d
        ∧ d.get_element_by_id elem_id = some e ∧ e.asCanvas = some cv
        ∧ cv.contextResult = .ok (some obj) ∧ obj.asContext2d = some ctx)
    ∧ (∀ w d e cv obj ctx, env.window = some w → w.doc = some d
        → d.get_element_by_id elem_id = some e → e.asCanvas = some cv
        → cv.contextResult = .ok (some obj) → obj.asContext2d = some ctx
        → CanvasBackend.new env elem_id = some ⟨cv, ctx⟩) := by
  intro env elem_id
  constructor
  · constructor
    · intro h
      rcases Option.isSome_iff_exists.mp h with ⟨backend, hb⟩
      rcases hw : env.window with _ | w
      · simp [CanvasBackend.new, hw] at hb
      · rcases hd : w.doc with _ | d
        · simp [CanvasBackend.new, hw, hd] at hb
        · rcases he : d.get_element_by_id elem_id with _ | e
          · simp [CanvasBackend.new, hw, hd, he] at hb
          · rcases hcv : e.asCanvas with _ | cv
            · simp [CanvasBackend.new, hw, hd, he, hcv] at hb
            · rcases hctx : cv.contextResult with err | obj?
              · simp [CanvasBackend.new, hw, hd, he, hcv, hctx,
                  Except.toOption] at hb
              · cases obj? with
                | none =>
                  simp [CanvasBackend.new, hw, hd, he, hcv, hctx,
                    Except.toOption] at hb
                | some obj =>
                  rcases hdyn : obj.asContext2d with _ | ctx
                  · simp [CanvasBackend.new, hw, hd, he, hcv, hctx, hdyn,
                      Except.toOption] at hb
                  · exact ⟨w, d, e, cv, obj, ctx, rfl, hd, he, hcv, hctx, hdyn⟩
    · rintro ⟨w, d, e, cv, obj, ctx, hw, hd, he, hcv, hctx, hdyn⟩
      simp [CanvasBackend.new, hw, hd, he, hcv, hctx, hdyn, Except.toOption]
  · intro w d e cv obj ctx hw hd he hcv hctx hdyn
    simp [CanvasBackend.new, hw, hd, he, hcv, hctx, hdyn, Except.toOption]

/-- Concrete witness for C2: an environment in which every lookup step
succeeds, on which `CanvasBackend::new` yields the adapter bound to the
resolved canvas and context. -/
theorem C2_new_characterization_witness :
    CanvasBackend.new
      ⟨some ⟨some ⟨fun s =>
        if s = "chart" then
          some ⟨some ⟨300, 200, .ok (some ⟨some ⟨0⟩⟩)⟩⟩
        else none⟩⟩⟩ "chart"
      = some ⟨⟨300, 200, .ok (some ⟨some ⟨0⟩⟩)⟩, ⟨0⟩⟩ :=
  (C2_new_characterization _ "chart").2 _ _ _ _ _ _ rfl rfl
    (by simp [Document.get_element_by_id]) rfl rfl rfl

/-- C3: every draw call converts the color to exactly the string
`rgba(<r>,<g>,<b>,<a>)` with decimal components, recomputed from the color
argument on each call (each primitive sets its style to
`make_canvas_color` of the color it was handed), and the color with
`rgb() = (10,20,30)` and `alpha() = 0.5` yields exactly
`rgba(10,20,30,0.5)`. -/
theorem C3_color_string :
    (∀ c : ColorCap, make_canvas_color c =
      "rgba(" ++ Nat.repr c.r ++ "," ++ Nat.repr c.g ++ "," ++ Nat.repr c.b
        ++ "," ++ fmtF64 c.alpha ++ ")")
    ∧ (∀ p c, CanvasOp.setFillStyle (make_canvas_color c) ∈ (draw_pixel p c).1)
    ∧ (∀ a b c, CanvasOp.setStrokeStyle (make_canvas_color c) ∈ (draw_line a b c).1)
    ∧ (∀ ul br c, CanvasOp.setFillStyle (make_canvas_color c) ∈ (draw_rect ul br c true).1
        ∧ CanvasOp.setStrokeStyle (make_canvas_color c) ∈ (draw_rect ul br c false).1)
    ∧ (∀ start rest c,
        CanvasOp.setStrokeStyle (make_canvas_color c) ∈ (draw_path (start :: rest) c).1)
    ∧ (∀ err center radius c,
        CanvasOp.setFillStyle (make_canvas_color c) ∈ (draw_circle err center radius c true).1
        ∧ CanvasOp.setStrokeStyle (make_canvas_color c) ∈ (draw_circle err center radius c false).1)
    ∧ (∀ err text font pos c,
        CanvasOp.setFillStyle (make_canvas_color c) ∈ (draw_text err text font pos c).1)
    ∧ make_canvas_color ⟨10, 20, 30, 1 / 2⟩ = "rgba(10,20,30,0.5)" := by
  refine ⟨fun c => rfl, fun p c => ?_, fun a b c => ?_, fun ul br c => ⟨?_, ?_⟩,
    fun start rest c => ?_, fun err center radius c => ⟨?_, ?_⟩,
    fun err text font pos c => ?_, ?_⟩
  · simp [draw_pixel]
  · simp [draw_line]
  · simp [draw_rect]
  · simp [draw_rect]
  · simp [draw_path]
  · cases err <;> simp [draw_circle]
  · cases err <;> simp [draw_circle]
  · cases err <;> simp [draw_text]
  · norm_num [make_canvas_color, fmtF64]
    rfl

/-- C4: `draw_path` on the empty sequence issues exactly a begin-path and
a single stroke (no move-to, no line-to) and succeeds; on `start :: rest`
it succeeds and issues exactly one move-to (to `start`), the line-to calls
for `rest` in order, and exactly one stroke, which is the last call. -/
theorem C4_draw_path_shape :
    (∀ c, draw_path [] c = ([.beginPath, .stroke], .ok ())
      ∧ (draw_path [] c).1.filter CanvasOp.isMoveTo = []
      ∧ (draw_path [] c).1.filter CanvasOp.isLineTo = []
      ∧ (draw_path [] c).1.filter CanvasOp.isStroke = [.stroke])
    ∧ (∀ c (start : BackendCoord) (rest : List BackendCoord),
        (draw_path (start :: rest) c).2 = .ok ()
        ∧ (draw_path (start :: rest) c).1.filter CanvasOp.isMoveTo
            = [.moveTo (start.1 : Rat) (start.2 : Rat)]
        ∧ (draw_path (start :: rest) c).1.filter CanvasOp.isLineTo
            = rest.map lineToOf
        ∧ (draw_path (start :: rest) c).1.filter CanvasOp.isStroke = [.stroke]
        ∧ (draw_path (start :: rest) c).1.getLast? = some .stroke)
    ∧ (draw_path [(0, 0), (5, 5), (10, 0)] sampleColor).1
        = [.beginPath, .setStrokeStyle (make_canvas_color sampleColor),
           .moveTo 0 0, .lineTo 5 5, .lineTo 10 0, .stroke] := by
  refine ⟨fun c => ⟨rfl, rfl, rfl, rfl⟩, fun c start rest => ⟨rfl, ?_, ?_, ?_, ?_⟩, ?_⟩
  · simp [draw_path, CanvasOp.isMoveTo, CanvasOp.isLineTo, CanvasOp.isStroke,
      filter_lineTo_map_isMoveTo]
  · simp [draw_path, CanvasOp.isMoveTo, CanvasOp.isLineTo, CanvasOp.isStroke,
      filter_lineTo_map_isLineTo]
  · simp [draw_path, CanvasOp.isMoveTo, CanvasOp.isLineTo, CanvasOp.isStroke,
      filter_lineTo_map_isStroke]
  · have : (draw_path (start :: rest) c).1
        = (CanvasOp.beginPath :: .setStrokeStyle (make_canvas_color c)
            :: .moveTo (start.1 : Rat) (start.2 : Rat) :: rest.map lineToOf)
          ++ [.stroke] := by
      simp [draw_path]
    rw [this, List.getLast?_concat]
  · simp [draw_path, lineToOf]

/-- C5: `draw_rect` passes `bottom_right - upper_left` component-wise as
the width and height, with `upper_left` as origin, with no normalization
of corner order (negative extents pass through), choosing fill versus
stroke by the flag; concretely, corners `(0,0)`/`(10,20)` with fill give a
fill of width 10 and height 20 at the origin, and swapped corners give
extents `-10` and `-20`. -/
theorem C5_draw_rect_extents :
    (∀ (ul br : BackendCoord) (c : ColorCap),
      draw_rect ul br c true
        = ([.setFillStyle (make_canvas_color c),
            .fillRect (ul.1 : Rat) (ul.2 : Rat)
              ((br.1 - ul.1 : Int) : Rat) ((br.2 - ul.2 : Int) : Rat)], .ok ())
      ∧ draw_rect ul br c false
        = ([.setStrokeStyle (make_canvas_color c),
            .strokeRect (ul.1 : Rat) (ul.2 : Rat)
              ((br.1 - ul.1 : Int) : Rat) ((br.2 - ul.2 : Int) : Rat)], .ok ()))
    ∧ (draw_rect (0, 0) (10, 20) sampleColor true).1
        = [.setFillStyle (make_canvas_color sampleColor), .fillRect 0 0 10 20]
    ∧ (draw_rect (10, 20) (0, 0) sampleColor true).1
        = [.setFillStyle (make_canvas_color sampleColor),
           .fillRect 10 20 (-10) (-20)] := by
  refine ⟨fun ul br c => ⟨rfl, rfl⟩, ?_, ?_⟩
  · norm_num [draw_rect]
  · norm_num [draw_rect]

/-- C6: `draw_text` issues, in order, set-text-baseline `bottom`, set fill
style to the color string, set font to exactly `<size>px <name>`, and a
fill-text call at horizontal position `x` and vertical position
`y + size`; concretely, size 12 and name `serif` at `(3,4)` give the font
string `12px serif` and a fill-text at `(3, 16)`. -/
theorem C6_draw_text_calls :
    (∀ err text font (pos : BackendCoord) c,
      (draw_text err text font pos c).1 =
        [.setTextBaseline "bottom",
         .setFillStyle (make_canvas_color c),
         .setFont (fmtF64 font.get_size ++ "px " ++ font.get_name),
         .fillText text (pos.1 : Rat) ((pos.2 : Rat) + font.get_size)])
    ∧ (draw_text none "hello" ⟨12, "serif"⟩ (3, 4) sampleColor).1 =
        [.setTextBaseline "bottom",
         .setFillStyle (make_canvas_color sampleColor),
         .setFont "12px serif",
         .fillText "hello" 3 16] := by
  constructor
  · intro err text font pos c
    cases err <;> rfl
  · norm_num [draw_text, FontDesc.get_size, FontDesc.get_name, fmtF64]
    rfl

/-- C7: `draw_circle` issues exactly one arc call, from angle 0 to twice
the `f64` value of pi, centered at the given point with the given radius;
when the host arc call succeeds it sets the fill or stroke style per the
flag and fills or strokes accordingly, returning success; when the host
arc call fails it returns the drawing-error wrapping the host value. -/
theorem C7_draw_circle_arc :
    (∀ (center : BackendCoord) radius c fill,
      draw_circle none center radius c fill
        = ([if fill then .setFillStyle (make_canvas_color c)
              else .setStrokeStyle (make_canvas_color c),
            .beginPath,
            .arc (center.1 : Rat) (center.2 : Rat) (radius : Rat) 0 (pi_f64 * 2),
            if fill then CanvasOp.fill else .stroke], .ok ()))
    ∧ (∀ e (center : BackendCoord) radius c fill,
        (draw_circle (some e) center radius c fill).2
          = .error (.DrawingError ⟨e⟩))
    ∧ (∀ err (center : BackendCoord) radius c fill,
        (draw_circle err center radius c fill).1.filter CanvasOp.isArc
          = [.arc (center.1 : Rat) (center.2 : Rat) (radius : Rat) 0 (pi_f64 * 2)]) := by
  refine ⟨fun center radius c fill => ?_, fun e center radius c fill => ?_,
    fun err center radius c fill => ?_⟩
  · cases fill <;> rfl
  · cases fill <;> rfl
  · cases err <;> cases fill <;>
      simp [draw_circle, CanvasOp.isArc, CanvasOp.isSetStyle]

/-- C8: rendering the adapter error under Display gives
`Canvas Error: <JSON-stringified value>` and under Debug gives
`CanvasError(<JSON-stringified value>)`, with the fixed string `Unknown`
substituted for the serialized value when stringification fails. -/
theorem C8_error_display :
    (∀ v : JsValue,
      CanvasError.display ⟨v⟩ = "Canvas Error: " ++ (JSONstringify v).getD "Unknown"
      ∧ CanvasError.debugFmt ⟨v⟩ = "CanvasError(" ++ (JSONstringify v).getD "Unknown" ++ ")")
    ∧ (∀ s : String,
      CanvasError.display ⟨⟨some s⟩⟩ = "Canvas Error: " ++ s
      ∧ CanvasError.debugFmt ⟨⟨some s⟩⟩ = "CanvasError(" ++ s ++ ")")
    ∧ CanvasError.display ⟨⟨none⟩⟩ = "Canvas Error: Unknown"
    ∧ CanvasError.debugFmt ⟨⟨none⟩⟩ = "CanvasError(Unknown)" := by
  exact ⟨fun v => ⟨rfl, rfl⟩, fun s => ⟨rfl, rfl⟩, rfl, rfl⟩

/-- C9: failure of the two fallible primitives is not atomic with respect
to the context: in every starting style state, a failing `draw_circle` has
already set the fill style (when filling) or the stroke style (when
stroking) to the color string and begun a new path by the time it returns
the drawing-error, and a failing `draw_text` has already set the text
baseline to `bottom`, the fill style to the color string, and the font
string. -/
theorem C9_failure_not_atomic :
    ∀ (s : CtxState) (e : JsValue) (c : ColorCap),
    (∀ (center : BackendCoord) radius,
      (draw_circle (some e) center radius c true).2 = .error (.DrawingError ⟨e⟩)
      ∧ (applyOps s (draw_circle (some e) center radius c true).1).fillStyle
          = make_canvas_color c
      ∧ CanvasOp.beginPath ∈ (draw_circle (some e) center radius c true).1)
    ∧ (∀ (center : BackendCoord) radius,
      (draw_circle (some e) center radius c false).2 = .error (.DrawingError ⟨e⟩)
      ∧ (applyOps s (draw_circle (some e) center radius c false).1).strokeStyle
          = make_canvas_color c
      ∧ CanvasOp.beginPath ∈ (draw_circle (some e) center radius c false).1)
    ∧ (∀ text font (pos : BackendCoord),
      (draw_text (some e) text font pos c).2 = .error (.DrawingError ⟨e⟩)
      ∧ (applyOps s (draw_text (some e) text font pos c).1).textBaseline = "bottom"
      ∧ (applyOps s (draw_text (some e) text font pos c).1).fillStyle
          = make_canvas_color c
      ∧ (applyOps s (draw_text (some e) text font pos c).1).font
          = fmtF64 font.get_size ++ "px " ++ font.get_name) := by
  intro s e c
  refine ⟨fun center radius => ⟨rfl, ?_, ?_⟩, fun center radius => ⟨rfl, ?_, ?_⟩,
    fun text font pos => ⟨rfl, ?_, ?_, ?_⟩⟩
  · simp [draw_circle, applyOps, applyOp]
  · simp [draw_circle]
  · simp [draw_circle, applyOps, applyOp]
  · simp [draw_circle]
  · simp [draw_text, applyOps, applyOp]
  · simp [draw_text, applyOps, applyOp]
  · simp [draw_text, applyOps, applyOp]

/-- C10: `draw_path` on the empty sequence issues no style-setting call
at all (the whole style state, in particular the previous stroke style, is
left unchanged by its trace), while on a non-empty sequence it sets the
stroke style to the color string. -/
theorem C10_empty_path_keeps_style :
    ∀ (s : CtxState) (c : ColorCap),
    (applyOps s (draw_path [] c).1 = s
      ∧ (draw_path [] c).1.filter CanvasOp.isSetStyle = [])
    ∧ (∀ (start : BackendCoord) rest,
      (applyOps s (draw_path (start :: rest) c).1).strokeStyle = make_canvas_color c
      ∧ CanvasOp.setStrokeStyle (make_canvas_color c) ∈ (draw_path (start :: rest) c).1) := by
  intro s c
  refine ⟨⟨rfl, rfl⟩, fun start rest => ⟨?_, ?_⟩⟩
  · have h1 : applyOps s (draw_path (start :: rest) c).1
        = applyOps ({ s with strokeStyle := make_canvas_color c })
            (rest.map lineToOf ++ [.stroke]) := by
      simp [draw_path, applyOps, applyOp]
    rw [h1]
    have h2 : applyOps ({ s with strokeStyle := make_canvas_color c })
        (rest.map lineToOf ++ [.stroke])
        = applyOps (applyOps ({ s with strokeStyle := make_canvas_color c })
            (rest.map lineToOf)) [.stroke] := by
      simp [applyOps]
    rw [h2, applyOps_lineTo_map]
    rfl
  · simp [draw_path]

end Plotters
